import Mathlib

/-!
Shallow embedding of `nsupdate/api/views.py` (dyndns2-compatible dynamic DNS
update API) and verification of its specification.

External collaborators of the views module (the `Host` directory, the
`check_password` hash verifier, the `update` DNS primitive, the configured
bad-agent blacklist) are modelled as an explicit `Env` record.  Side effects
on the directory and the DNS zone are recorded as an explicit event trace so
that ordering ("poke before update") and absence ("no mutation") properties
can be stated.  Uncaught Python exceptions are modelled as `Outcome.fault`
values; a Django view returning the non-response value `False` is modelled
as `Outcome.retFalse`.
-/

namespace NsUpdate

/-- Address family tag returned by the IP classifier. -/
inductive IpKind where
  | ipv4
  | ipv6
deriving DecidableEq

/-- Uncaught Python exceptions that can escape the views. -/
inductive Fault where
  | typeError      -- unpacking the `None` returned by `basic_authenticate`
  | valueError     -- a `split` that cannot unpack (no space / no colon)
  | base64Error    -- `.decode('base64')` failure (binascii.Error)
  | invalidIPError -- `check_ip` failure propagating out of `_update`
  | updateError    -- any non-`SameIpError` exception from `update`
deriving DecidableEq

/-- Result of the external DNS `update(hostname, ip)` primitive. -/
inductive UpdateOutcome where
  | success
  | sameIp      -- the dedicated `SameIpError` idempotence signal
  | otherError  -- any other exception
deriving DecidableEq

/-- A Django `HttpResponse` as far as this API surface is concerned:
status code, plain-text body, and the optional `WWW-Authenticate` header. -/
structure HttpResp where
  status : Nat
  body : String
  wwwAuthenticate : Option String
deriving DecidableEq

/-- Observable interactions with the external collaborators. -/
inductive Event where
  | lookupEv (fqdn : String)              -- `Host.filter_by_fqdn` (read)
  | classifyEv (addr : String)            -- `check_ip` call in `_update`
  | pokeEv (fqdn : String) (kind : IpKind) -- `host.poke(kind)` mutation
  | updateEv (fqdn : String) (addr : String) -- DNS `update(hostname, ipaddr)` call
deriving DecidableEq

/-- What a view invocation produces: an HTTP response, the bare Python value
`False` (which `_update` returns on host-lookup failure and the callers pass
through unchanged), or an uncaught exception. -/
inductive Outcome where
  | resp (r : HttpResp)
  | retFalse
  | fault (f : Fault)
deriving DecidableEq

/-- Modelled from the spec: a host record of the external directory
(`nsupdate.main.models.Host`, not among the provided sources).  Per the spec
it carries the FQDN, the owning-user reference and the stored secret hash. -/
structure HostRec where
  fqdn : String
  created_by : String
  update_secret : String
deriving DecidableEq

/-- The external collaborators of the views module. -/
structure Env where
  hosts : List HostRec
  checkPassword : String → String → Bool   -- django check_password(password, hash)
  badAgents : List String                  -- settings.BAD_AGENTS
  updateResult : String → String → UpdateOutcome -- behaviour of dnstools.update

/-- The request data the views consult. -/
structure Request where
  hostnameParam : Option String  -- GET parameter `hostname`
  myipParam : Option String      -- GET parameter `myip`
  userAgent : Option String      -- META `HTTP_USER_AGENT`
  authHeader : Option String     -- META `HTTP_AUTHORIZATION`
  remoteAddr : String            -- META `REMOTE_ADDR`
  user : String                  -- request.user (authenticated view only)

/-! ### String helpers (kernel-computable counterparts of the Python string
operations used by the views) -/

/-- Python `s.split(sep)` on a single-character separator. -/
def splitOnChar (sep : Char) : List Char → List (List Char)
  | [] => [[]]
  | c :: cs =>
    let r := splitOnChar sep cs
    if c = sep then [] :: r
    else
      match r with
      | [] => [[c]]
      | g :: gs => (c :: g) :: gs

/-- Python `s.split(sep, 1)`: split at the first occurrence only; `none`
when the separator does not occur (where the Python tuple unpacking would
raise `ValueError`). -/
def splitFirstChar (sep : Char) : List Char → Option (List Char × List Char)
  | [] => none
  | c :: cs =>
    if c = sep then some ([], cs)
    else
      match splitFirstChar sep cs with
      | none => none
      | some (a, b) => some (c :: a, b)

def isPySpace (c : Char) : Bool :=
  c = ' ' || c = '\t' || c = '\n' || c = '\r'

/-- Python `s.strip()`. -/
def stripChars (l : List Char) : List Char :=
  ((l.dropWhile isPySpace).reverse.dropWhile isPySpace).reverse

/-- Python `str.lower` on one character. -/
def lowerChar (c : Char) : Char :=
  if 'A' ≤ c && c ≤ 'Z' then Char.ofNat (c.toNat + 32) else c

/-! ### Base64 (Python 2 `str.decode('base64')`, i.e. `binascii.a2b_base64`:
characters outside the alphabet are ignored, incorrect padding raises) -/

/-- Value of a base64 alphabet character. -/
def b64Val (c : Char) : Option Nat :=
  if 'A' ≤ c && c ≤ 'Z' then some (c.toNat - 65)
  else if 'a' ≤ c && c ≤ 'z' then some (c.toNat - 97 + 26)
  else if '0' ≤ c && c ≤ '9' then some (c.toNat - 48 + 52)
  else if c = '+' then some 62
  else if c = '/' then some 63
  else none

/-- Decode base64 quadruples into bytes; `none` models a `binascii.Error`. -/
def b64Groups : List Char → Option (List Nat)
  | [] => some []
  | a :: b :: c :: d :: rest =>
    match b64Val a, b64Val b with
    | some va, some vb =>
      if c = '=' && d = '=' && rest = [] then
        some [va * 4 + vb / 16]
      else
        match b64Val c with
        | some vc =>
          if d = '=' && rest = [] then
            some [va * 4 + vb / 16, (vb % 16) * 16 + vc / 4]
          else
            match b64Val d with
            | some vd =>
              (b64Groups rest).map
                (fun tail =>
                  (va * 4 + vb / 16) :: ((vb % 16) * 16 + vc / 4) ::
                    ((vc % 4) * 64 + vd) :: tail)
            | none => none
        | none => none
    | _, _ => none
  | _ => none

/-- Python 2 base64 decoding of a character list into bytes. -/
def pyB64Decode (l : List Char) : Option (List Nat) :=
  let cs := l.filter (fun c => (b64Val c).isSome || c = '=')
  if cs.length % 4 = 0 then b64Groups cs else none

/-! ### IP classifier -/

/-- A decimal octet `0..255` (one to three digits). -/
def isIpv4Octet (l : List Char) : Bool :=
  0 < l.length && l.length ≤ 3 && l.all Char.isDigit &&
    l.foldl (fun acc c => acc * 10 + (c.toNat - 48)) 0 ≤ 255

/-- Dotted-quad IPv4 literal. -/
def isIpv4 (s : String) : Bool :=
  let parts := splitOnChar '.' s.toList
  parts.length = 4 && parts.all isIpv4Octet

def isHexDigitChar (c : Char) : Bool :=
  c.isDigit || ('a' ≤ c && c ≤ 'f') || ('A' ≤ c && c ≤ 'F')

/-- A group of one to four hex digits. -/
def isHexGroup (l : List Char) : Bool :=
  0 < l.length && l.length ≤ 4 && l.all isHexDigitChar

/-- Number of non-overlapping occurrences of `::` in the string. -/
def countDoubleColon : List Char → Nat
  | ':' :: ':' :: rest => countDoubleColon rest + 1
  | _ :: rest => countDoubleColon rest
  | [] => 0

/-- IPv6 literal (simplified grammar: eight hex groups, or fewer compressed
by exactly one `::`; the embedded-IPv4 form is not modelled). -/
def isIpv6 (s : String) : Bool :=
  let parts := splitOnChar ':' s.toList
  let full := parts.filter (fun p => !p.isEmpty)
  2 ≤ parts.length && full.all isHexGroup &&
    (if parts.any (fun p => p.isEmpty) then
       countDoubleColon s.toList = 1 && full.length ≤ 7
     else parts.length = 8)

/-- Classify a textual address into a family, if any. -/
def classifyAddr (s : String) : Option IpKind :=
  if isIpv4 s then some .ipv4 else if isIpv6 s then some .ipv6 else none

/-- Modelled from the spec: `check_ip(addr, allowed_kinds)` lives in
`nsupdate.main.dnstools`, which is not among the provided sources.  Per the
spec it validates that the string is a syntactically valid IPv4 or IPv6
literal and returns the family tag, failing with `InvalidIPError` (here:
`none`) when the string parses as neither family or as a family not present
in `allowed_kinds`. -/
def check_ip (s : String) (allowed : List IpKind) : Option IpKind :=
  match classifyAddr s with
  | some k => if k ∈ allowed then some k else none
  | none => none

/-! ### The views module -/

/-- `Response(content)`: a `text/plain` 200 response. -/
def Response (content : String) : HttpResp :=
  { status := 200, body := content, wwwAuthenticate := none }

/-- `basic_challenge(realm, content)`: a 401 response requesting basic auth. -/
def basic_challenge (realm : String) (content : String) : HttpResp :=
  { status := 401, body := content
    wwwAuthenticate := some ("Basic realm=\"" ++ realm ++ "\"") }

/-- The possible results of `basic_authenticate(auth)`: a credential pair,
the bare `return` (None) on a non-Basic scheme, or an uncaught exception. -/
inductive AuthParse where
  | ok (username : String) (password : String)
  | retNone     -- scheme token is not `basic` (case-insensitive)
  | errSplit    -- no space in the header: `split(' ', 1)` unpacking raises
  | errBase64   -- `.decode('base64')` raises
  | errNoColon  -- no colon in the decoded payload: `split(':', 1)` raises
deriving DecidableEq

/-- `basic_authenticate(auth)` from the source: split off the scheme token,
compare it case-insensitively with `basic`, strip and base64-decode the
payload, and split it at the first colon. -/
def basic_authenticate (auth : String) : AuthParse :=
  match splitFirstChar ' ' auth.toList with
  | none => .errSplit
  | some (authmeth, rest) =>
    if authmeth.map lowerChar = "basic".toList then
      match pyB64Decode (stripChars rest) with
      | none => .errBase64
      | some bytes =>
        match splitFirstChar ':' (bytes.map Char.ofNat) with
        | none => .errNoColon
        | some (u, p) => .ok (String.mk u) (String.mk p)
    else .retNone

/-- Modelled from the spec: `Host.filter_by_fqdn(fqdn)` of the external
directory — exact FQDN match over the host records. -/
def filter_by_fqdn (hosts : List HostRec) (fqdn : String) : List HostRec :=
  hosts.filter (fun h => h.fqdn = fqdn)

/-- Modelled from the spec: `Host.filter_by_fqdn(fqdn, created_by=user)` —
exact match on both FQDN and owning user. -/
def filter_by_fqdn_owner (hosts : List HostRec) (fqdn : String) (user : String) :
    List HostRec :=
  hosts.filter (fun h => h.fqdn = fqdn && h.created_by = user)

/-- `check_api_auth(username, password)` from the source: zero or multiple
matching hosts fail; exactly one match defers to the password-hash check.
The trace records the single directory read; no `pokeEv`/`updateEv` is ever
emitted (the source performs no mutation here, only logging). -/
def check_api_auth (env : Env) (username : String) (password : String) :
    Bool × List Event :=
  let hosts := filter_by_fqdn env.hosts username
  let tr := [Event.lookupEv username]
  if hosts.length = 0 then (false, tr)
  else if 1 < hosts.length then (false, tr)
  else
    match hosts with
    | h :: _ => (env.checkPassword password h.update_secret, tr)
    | [] => (false, tr)

/-- `check_session_auth(user, hostname)` from the source: true iff exactly
one host record matches both the hostname and the owning user. -/
def check_session_auth (env : Env) (user : String) (hostname : String) :
    Bool × List Event :=
  let hosts := filter_by_fqdn_owner env.hosts hostname user
  let tr := [Event.lookupEv hostname]
  if hosts.length = 0 then (false, tr)
  else if 1 < hosts.length then (false, tr)
  else (true, tr)

/-- `_update(hostname, ipaddr, agent)` from the source: resolve the host by
exact FQDN (zero or multiple matches return the bare value `False`), classify
the IP (an `InvalidIPError` propagates uncaught), `poke` the record for the
classified family, then call the DNS `update` primitive — `SameIpError`
yields `nochg <ip>`, success yields `good <ip>`, anything else propagates. -/
def _update (env : Env) (hostname : String) (ipaddr : String) (agent : String) :
    Outcome × List Event :=
  let hosts := filter_by_fqdn env.hosts hostname
  if hosts.length = 0 then (.retFalse, [.lookupEv hostname])
  else if 1 < hosts.length then (.retFalse, [.lookupEv hostname])
  else
    match hosts with
    | [] => (.retFalse, [.lookupEv hostname])
    | h :: _ =>
      match check_ip ipaddr [.ipv4, .ipv6] with
      | none => (.fault .invalidIPError, [.lookupEv hostname, .classifyEv ipaddr])
      | some kind =>
        let tr := [Event.lookupEv hostname, .classifyEv ipaddr,
                   .pokeEv h.fqdn kind, .updateEv hostname ipaddr]
        match env.updateResult hostname ipaddr with
        | .success => (.resp (Response ("good " ++ ipaddr)), tr)
        | .sameIp => (.resp (Response ("nochg " ++ ipaddr)), tr)
        | .otherError => (.fault .updateError, tr)

/-- `NicUpdateView(request)` from the source: the unauthenticated dyndns2
handler.  Missing `Authorization` yields the `noauth` challenge; the header
is decoded with `basic_authenticate` (whose `None` return is unpacked,
raising `TypeError`, and whose exceptions propagate); failed credential
verification yields the `badauth` challenge; a missing `hostname` defaults
to the username; a missing (`None`) `myip` falls back to `REMOTE_ADDR`; a
blacklisted agent yields `badagent`; otherwise `_update` runs. -/
def NicUpdateView (env : Env) (req : Request) : Outcome × List Event :=
  let agent := req.userAgent.getD "unknown"
  match req.authHeader with
  | none => (.resp (basic_challenge "authenticate to update DNS" "noauth"), [])
  | some auth =>
    match basic_authenticate auth with
    | .errSplit => (.fault .valueError, [])
    | .retNone => (.fault .typeError, [])
    | .errBase64 => (.fault .base64Error, [])
    | .errNoColon => (.fault .valueError, [])
    | .ok username password =>
      let ares := check_api_auth env username password
      if !ares.1 then
        (.resp (basic_challenge "authenticate to update DNS" "badauth"), ares.2)
      else
        let hostname := req.hostnameParam.getD username
        let ipaddr := req.myipParam.getD req.remoteAddr
        if agent ∈ env.badAgents then (.resp (Response "badagent"), ares.2)
        else
          let d := _update env hostname ipaddr agent
          (d.1, ares.2 ++ d.2)

/-- `AuthorizedNicUpdateView(request)` from the source: the session-owner
handler.  A missing `hostname` yields `nohost` immediately; a failed
ownership check yields `nohost`; a `myip` that is `None` *or* empty
(Python `if not ipaddr`) falls back to `REMOTE_ADDR`; then `_update` runs
(no agent-blacklist check on this path). -/
def AuthorizedNicUpdateView (env : Env) (req : Request) : Outcome × List Event :=
  let agent := req.userAgent.getD "unknown"
  match req.hostnameParam with
  | none => (.resp (Response "nohost"), [])
  | some hostname =>
    let sres := check_session_auth env req.user hostname
    if !sres.1 then (.resp (Response "nohost"), sres.2)
    else
      let ipaddr :=
        match req.myipParam with
        | none => req.remoteAddr
        | some s => if s.isEmpty then req.remoteAddr else s
      let d := _update env hostname ipaddr agent
      (d.1, sres.2 ++ d.2)

/-! ### Concrete environments and requests used to witness the theorems -/

def hostA : HostRec :=
  { fqdn := "host.example.org", created_by := "alice", update_secret := "hashA" }

def hostD1 : HostRec :=
  { fqdn := "dup.example.org", created_by := "bob", update_secret := "hashD1" }

def hostD2 : HostRec :=
  { fqdn := "dup.example.org", created_by := "bob", update_secret := "hashD2" }

/-- A concrete stand-in for django `check_password`: only the pair
(`s3cr3t`, `hashA`) verifies. -/
def checkPasswordEx : String → String → Bool :=
  fun p h => p == "s3cr3t" && h == "hashA"

def envGood : Env :=
  { hosts := [hostA, hostD1, hostD2], checkPassword := checkPasswordEx
    badAgents := ["EvilAgent"], updateResult := fun _ _ => .success }

def envNochg : Env := { envGood with updateResult := fun _ _ => .sameIp }

def envErr : Env := { envGood with updateResult := fun _ _ => .otherError }

/-- Base request: correct credentials for `host.example.org`, explicit IP. -/
def reqBase : Request :=
  { hostnameParam := none, myipParam := some "203.0.113.5"
    userAgent := some "curl"
    authHeader := some "Basic aG9zdC5leGFtcGxlLm9yZzpzM2NyM3Q="
    remoteAddr := "198.51.100.7", user := "alice" }

/-- Valid credentials, but the `hostname` parameter names an unregistered host. -/
def reqC1 : Request := { reqBase with hostnameParam := some "other.example.org" }

/-- No `Authorization` header. -/
def reqNoAuth : Request := { reqBase with authHeader := none }

/-- Valid username, wrong password (`host.example.org:wrong`). -/
def reqBadPw : Request :=
  { reqBase with authHeader := some "Basic aG9zdC5leGFtcGxlLm9yZzp3cm9uZw==" }

/-- Valid credentials, blacklisted user agent. -/
def reqEvil : Request := { reqBase with userAgent := some "EvilAgent" }

/-- Blacklisted user agent and no `Authorization` header. -/
def reqEvilNoAuth : Request := { reqEvil with authHeader := none }

/-- Blacklisted user agent and wrong password. -/
def reqEvilBadPw : Request :=
  { reqEvil with authHeader := some "Basic aG9zdC5leGFtcGxlLm9yZzp3cm9uZw==" }

/-- `Authorization` header with a non-Basic scheme. -/
def reqDigest : Request := { reqBase with authHeader := some "Digest abc" }

/-- `Authorization` header whose base64 payload is invalid (bad padding). -/
def reqBadB64 : Request := { reqBase with authHeader := some "Basic a" }

/-- `Authorization` header whose decoded payload (`hello`) has no colon. -/
def reqNoColon : Request := { reqBase with authHeader := some "Basic aGVsbG8=" }

/-- Valid credentials and an explicitly empty `myip` parameter. -/
def reqEmptyIp : Request := { reqBase with myipParam := some "" }

/-- Session request (user `alice`) with the `hostname` parameter missing. -/
def reqAuthMissing : Request := { reqBase with hostnameParam := none }

/-- Session request for a hostname that exists but belongs to `bob`. -/
def reqAuthOther : Request := { reqBase with hostnameParam := some "dup.example.org" }

/-- Session request for alice's own host with `myip` omitted. -/
def reqAuthOwn : Request :=
  { reqBase with hostnameParam := some "host.example.org", myipParam := none }

/-- Session request for alice's own host with `myip` present but empty. -/
def reqAuthOwnEmpty : Request :=
  { reqBase with hostnameParam := some "host.example.org", myipParam := some "" }

/-! ### Helper lemmas -/

theorem filter_head_fqdn {hosts : List HostRec} {f : String} {h : HostRec}
    {t : List HostRec} (hh : filter_by_fqdn hosts f = h :: t) : h.fqdn = f := by
  have hm : h ∈ filter_by_fqdn hosts f := by
    rw [hh]; exact List.mem_cons_self _ _
  have hp := List.of_mem_filter hm
  simpa using hp

theorem check_api_auth_trace (env : Env) (u p : String) :
    (check_api_auth env u p).2 = [.lookupEv u] := by
  unfold check_api_auth
  dsimp only
  split
  · rfl
  · split
    · rfl
    · split <;> rfl

theorem check_session_auth_trace (env : Env) (user hn : String) :
    (check_session_auth env user hn).2 = [.lookupEv hn] := by
  unfold check_session_auth
  dsimp only
  split
  · rfl
  · split <;> rfl

/-- `_update` in the one-host, classifiable-IP case: the outcome follows the
update primitive's result and the trace is lookup, classify, poke, update. -/
theorem update_single (env : Env) (hostname ipaddr agent : String) (h : HostRec)
    (hh : filter_by_fqdn env.hosts hostname = [h]) (kind : IpKind)
    (hc : check_ip ipaddr [.ipv4, .ipv6] = some kind) :
    _update env hostname ipaddr agent =
      ((match env.updateResult hostname ipaddr with
        | .success => .resp (Response ("good " ++ ipaddr))
        | .sameIp => .resp (Response ("nochg " ++ ipaddr))
        | .otherError => .fault .updateError),
       [.lookupEv hostname, .classifyEv ipaddr, .pokeEv h.fqdn kind,
        .updateEv hostname ipaddr]) := by
  unfold _update
  rw [hh]
  simp only [List.length_singleton]
  norm_num
  rw [hc]
  cases env.updateResult hostname ipaddr <;> rfl

/-- `_update` in the one-host, unclassifiable-IP case: the `InvalidIPError`
propagates and neither `poke` nor `update` happens. -/
theorem update_invalid (env : Env) (hostname ipaddr agent : String) (h : HostRec)
    (hh : filter_by_fqdn env.hosts hostname = [h])
    (hc : check_ip ipaddr [.ipv4, .ipv6] = none) :
    _update env hostname ipaddr agent =
      (.fault .invalidIPError, [.lookupEv hostname, .classifyEv ipaddr]) := by
  unfold _update
  rw [hh]
  simp only [List.length_singleton]
  norm_num
  rw [hc]

/-- `_update` when the host lookup does not yield exactly one record: the
bare value `False` is returned and only the directory read happened. -/
theorem update_no_single_host (env : Env) (hostname ipaddr agent : String)
    (hh : (filter_by_fqdn env.hosts hostname).length ≠ 1) :
    _update env hostname ipaddr agent = (.retFalse, [.lookupEv hostname]) := by
  unfold _update
  rcases hlen : filter_by_fqdn env.hosts hostname with _ | ⟨h, _ | ⟨h2, t⟩⟩
  · simp
  · rw [hlen] at hh; simp at hh
  · simp

/-! ### Claim theorems -/

/-- C3: for every dispatch that resolves exactly one host record and
classifies the IP successfully, `poke(kind)` is invoked exactly once on that
record, with `kind` the classified family, and before the DNS `update`
primitive — for every behaviour of the update primitive, including the
`SameIpError` no-op.  The trace is exactly lookup, classify, poke, update. -/
theorem c3_poke_once_before_update (env : Env) (hostname ipaddr agent : String)
    (h : HostRec) (hh : filter_by_fqdn env.hosts hostname = [h])
    (kind : IpKind) (hc : check_ip ipaddr [.ipv4, .ipv6] = some kind) :
    (_update env hostname ipaddr agent).2 =
      [.lookupEv hostname, .classifyEv ipaddr, .pokeEv h.fqdn kind,
       .updateEv hostname ipaddr] := by
  rw [update_single env hostname ipaddr agent h hh kind hc]

/-- C3 witness: a concrete dispatch against an environment whose update
primitive signals the no-op condition still pokes exactly once, before the
update call. -/
theorem c3_poke_once_before_update_witness :
    (_update envNochg "host.example.org" "203.0.113.5" "curl").2 =
      [.lookupEv "host.example.org", .classifyEv "203.0.113.5",
       .pokeEv "host.example.org" .ipv4,
       .updateEv "host.example.org" "203.0.113.5"] :=
  c3_poke_once_before_update envNochg "host.example.org" "203.0.113.5" "curl"
    hostA (by decide) .ipv4 (by decide)

/-- C4: for every dispatch that reaches the DNS update call, success yields
body `good <ip>` (the literal preserved), `SameIpError` yields `nochg <ip>`,
and any other exception from the primitive propagates uncaught. -/
theorem c4_update_response_mapping (env : Env) (hostname ipaddr agent : String)
    (h : HostRec) (hh : filter_by_fqdn env.hosts hostname = [h])
    (kind : IpKind) (hc : check_ip ipaddr [.ipv4, .ipv6] = some kind) :
    (_update env hostname ipaddr agent).1 =
      (match env.updateResult hostname ipaddr with
       | .success => .resp (Response ("good " ++ ipaddr))
       | .sameIp => .resp (Response ("nochg " ++ ipaddr))
       | .otherError => .fault .updateError) := by
  rw [update_single env hostname ipaddr agent h hh kind hc]

/-- C4 witness: concrete success, no-op and failing update primitives yield
`good 203.0.113.5`, `nochg 203.0.113.5` and the propagating fault. -/
theorem c4_update_response_mapping_witness :
    (_update envGood "host.example.org" "203.0.113.5" "curl").1 =
      .resp (Response "good 203.0.113.5") ∧
    (_update envNochg "host.example.org" "203.0.113.5" "curl").1 =
      .resp (Response "nochg 203.0.113.5") ∧
    (_update envErr "host.example.org" "203.0.113.5" "curl").1 =
      .fault .updateError := by
  refine ⟨?_, ?_, ?_⟩
  · exact c4_update_response_mapping envGood "host.example.org" "203.0.113.5"
      "curl" hostA (by decide) .ipv4 (by decide)
  · exact c4_update_response_mapping envNochg "host.example.org" "203.0.113.5"
      "curl" hostA (by decide) .ipv4 (by decide)
  · exact c4_update_response_mapping envErr "host.example.org" "203.0.113.5"
      "curl" hostA (by decide) .ipv4 (by decide)

/-- C7: in every execution of the dispatcher, the IP is classified before
the update primitive is invoked: an unclassifiable address never produces an
`updateEv`, and whenever an `updateEv` occurs the trace is exactly lookup,
classify, poke, update — classification strictly precedes the update. -/
theorem c7_classify_before_update (env : Env) (hostname ipaddr agent : String) :
    (check_ip ipaddr [.ipv4, .ipv6] = none →
      ∀ hn ip, Event.updateEv hn ip ∉ (_update env hostname ipaddr agent).2) ∧
    (∀ hn ip, Event.updateEv hn ip ∈ (_update env hostname ipaddr agent).2 →
      ∃ kind, hn = hostname ∧ ip = ipaddr ∧
        check_ip ipaddr [.ipv4, .ipv6] = some kind ∧
        (_update env hostname ipaddr agent).2 =
          [.lookupEv hostname, .classifyEv ipaddr, .pokeEv hostname kind,
           .updateEv hostname ipaddr]) := by
  constructor
  · intro hc hn ip
    by_cases hlen : (filter_by_fqdn env.hosts hostname).length = 1
    · rcases List.length_eq_one.mp hlen with ⟨h, hh⟩
      rw [update_invalid env hostname ipaddr agent h hh hc]
      simp
    · rw [update_no_single_host env hostname ipaddr agent hlen]
      simp
  · intro hn ip hm
    by_cases hlen : (filter_by_fqdn env.hosts hostname).length = 1
    · rcases List.length_eq_one.mp hlen with ⟨h, hh⟩
      rcases hck : check_ip ipaddr [.ipv4, .ipv6] with _ | kind
      · rw [update_invalid env hostname ipaddr agent h hh hck] at hm
        simp at hm
      · rw [update_single env hostname ipaddr agent h hh kind hck] at hm
        have hf : h.fqdn = hostname := filter_head_fqdn hh
        simp only [List.mem_cons, List.not_mem_nil, or_false] at hm
        rcases hm with hm | hm | hm | hm
        · exact Event.noConfusion hm
        · exact Event.noConfusion hm
        · exact Event.noConfusion hm
        · injection hm with h1 h2
          refine ⟨kind, h1, h2, rfl, ?_⟩
          rw [update_single env hostname ipaddr agent h hh kind hck, hf]
    · rw [update_no_single_host env hostname ipaddr agent hlen] at hm
      simp at hm

/-- C7 witness: the empty address is unclassifiable and produces no update
event; the concrete good dispatch contains an update event and its trace has
the classification strictly before it. -/
theorem c7_classify_before_update_witness :
    (Event.updateEv "host.example.org" "" ∉
      (_update envGood "host.example.org" "" "curl").2) ∧
    (∃ kind, "host.example.org" = "host.example.org" ∧
      "203.0.113.5" = "203.0.113.5" ∧
      check_ip "203.0.113.5" [.ipv4, .ipv6] = some kind ∧
      (_update envGood "host.example.org" "203.0.113.5" "curl").2 =
        [.lookupEv "host.example.org", .classifyEv "203.0.113.5",
         .pokeEv "host.example.org" kind,
         .updateEv "host.example.org" "203.0.113.5"]) := by
  constructor
  · exact (c7_classify_before_update envGood "host.example.org" "" "curl").1
      (by decide) "host.example.org" ""
  · exact (c7_classify_before_update envGood "host.example.org" "203.0.113.5"
      "curl").2 "host.example.org" "203.0.113.5" (by decide)

/-! ### Handler helper lemmas -/

theorem nic_noauth (env : Env) (req : Request) (h : req.authHeader = none) :
    NicUpdateView env req =
      (.resp (basic_challenge "authenticate to update DNS" "noauth"), []) := by
  unfold NicUpdateView
  rw [h]

theorem nic_badauth (env : Env) (req : Request) (a u p : String)
    (ha : req.authHeader = some a) (hb : basic_authenticate a = .ok u p)
    (hfail : (check_api_auth env u p).1 = false) :
    NicUpdateView env req =
      (.resp (basic_challenge "authenticate to update DNS" "badauth"),
       [.lookupEv u]) := by
  unfold NicUpdateView
  rw [ha]
  dsimp only
  rw [hb]
  dsimp only
  rw [hfail, check_api_auth_trace]
  rfl

theorem nic_badagent (env : Env) (req : Request) (a u p : String)
    (ha : req.authHeader = some a) (hb : basic_authenticate a = .ok u p)
    (hok : (check_api_auth env u p).1 = true)
    (hbad : req.userAgent.getD "unknown" ∈ env.badAgents) :
    NicUpdateView env req = (.resp (Response "badagent"), [.lookupEv u]) := by
  unfold NicUpdateView
  rw [ha]
  dsimp only
  rw [hb]
  dsimp only
  rw [hok, check_api_auth_trace]
  rw [if_neg (by decide : ¬ ((!true) = true))]
  rw [if_pos hbad]

theorem nic_dispatch (env : Env) (req : Request) (a u p : String)
    (ha : req.authHeader = some a) (hb : basic_authenticate a = .ok u p)
    (hok : (check_api_auth env u p).1 = true)
    (hnbad : req.userAgent.getD "unknown" ∉ env.badAgents) :
    NicUpdateView env req =
      ((_update env (req.hostnameParam.getD u) (req.myipParam.getD req.remoteAddr)
          (req.userAgent.getD "unknown")).1,
       .lookupEv u ::
         (_update env (req.hostnameParam.getD u) (req.myipParam.getD req.remoteAddr)
           (req.userAgent.getD "unknown")).2) := by
  unfold NicUpdateView
  rw [ha]
  dsimp only
  rw [hb]
  dsimp only
  rw [hok, check_api_auth_trace]
  rw [if_neg (by decide : ¬ ((!true) = true))]
  rw [if_neg hnbad]
  rfl

theorem nic_undecodable (env : Env) (req : Request) (a : String)
    (ha : req.authHeader = some a) :
    (basic_authenticate a = .retNone →
      NicUpdateView env req = (.fault .typeError, [])) ∧
    (basic_authenticate a = .errSplit →
      NicUpdateView env req = (.fault .valueError, [])) ∧
    (basic_authenticate a = .errBase64 →
      NicUpdateView env req = (.fault .base64Error, [])) ∧
    (basic_authenticate a = .errNoColon →
      NicUpdateView env req = (.fault .valueError, [])) := by
  refine ⟨?_, ?_, ?_, ?_⟩ <;>
    (intro hb
     unfold NicUpdateView
     rw [ha]
     dsimp only
     rw [hb])

theorem authorized_missing (env : Env) (req : Request)
    (h : req.hostnameParam = none) :
    AuthorizedNicUpdateView env req = (.resp (Response "nohost"), []) := by
  unfold AuthorizedNicUpdateView
  rw [h]

theorem authorized_notowned (env : Env) (req : Request) (hn : String)
    (hhn : req.hostnameParam = some hn)
    (hown : (check_session_auth env req.user hn).1 = false) :
    AuthorizedNicUpdateView env req =
      (.resp (Response "nohost"), [.lookupEv hn]) := by
  unfold AuthorizedNicUpdateView
  rw [hhn]
  dsimp only
  rw [hown, check_session_auth_trace]
  rfl

theorem authorized_dispatch (env : Env) (req : Request) (hn : String)
    (hhn : req.hostnameParam = some hn)
    (hown : (check_session_auth env req.user hn).1 = true)
    (hmy : req.myipParam = none ∨ req.myipParam = some "") :
    AuthorizedNicUpdateView env req =
      ((_update env hn req.remoteAddr (req.userAgent.getD "unknown")).1,
       .lookupEv hn ::
         (_update env hn req.remoteAddr (req.userAgent.getD "unknown")).2) := by
  unfold AuthorizedNicUpdateView
  rw [hhn]
  dsimp only
  rw [hown, check_session_auth_trace]
  rcases hmy with hmy | hmy <;> rw [hmy] <;> rfl

/-! ### Remaining claim theorems -/

/-- C1 (code bug): with valid credentials but a `hostname` matching zero
host records, the dispatcher does abort before classifying the IP, calling
`poke` or calling the update primitive (the trace carries only directory
reads) — but it returns the bare value `False`, passed through unchanged by
the handler, not an HTTP response with body `nohost`; the duplicate-record
case behaves the same. -/
theorem c1_nohost_dispatch_returns_false :
    NicUpdateView envGood reqC1 =
      (.retFalse, [.lookupEv "host.example.org", .lookupEv "other.example.org"]) ∧
    (NicUpdateView envGood reqC1).1 ≠ .resp (Response "nohost") ∧
    _update envGood "dup.example.org" "203.0.113.5" "curl" =
      (.retFalse, [.lookupEv "dup.example.org"]) := by decide

/-- C2 (code bug): an `Authorization` header that cannot be decoded — a
non-Basic scheme (whose `None` return the handler unpacks, raising
`TypeError`), an invalid base64 payload, or a decoded payload without a
colon — makes the handler raise an unhandled fault instead of returning a
401 Basic challenge. -/
theorem c2_undecodable_auth_faults :
    NicUpdateView envGood reqDigest = (.fault .typeError, []) ∧
    NicUpdateView envGood reqBadB64 = (.fault .base64Error, []) ∧
    NicUpdateView envGood reqNoColon = (.fault .valueError, []) ∧
    (NicUpdateView envGood reqDigest).1 ≠
      .resp (basic_challenge "authenticate to update DNS" "noauth") ∧
    (NicUpdateView envGood reqDigest).1 ≠
      .resp (basic_challenge "authenticate to update DNS" "badauth") := by decide

/-- C5: the unauthenticated handler's outcome mapping — no `Authorization`
header yields the 401 `noauth` Basic challenge; decodable credentials that
fail verification yield the 401 `badauth` challenge; valid credentials with
a blacklisted agent yield `badagent` with no dispatch, no `poke` and no
update call (the trace holds only the credential-check directory read). -/
theorem c5_nic_update_outcomes (env : Env) (req : Request) :
    (req.authHeader = none →
      NicUpdateView env req =
        (.resp (basic_challenge "authenticate to update DNS" "noauth"), [])) ∧
    (∀ a u p, req.authHeader = some a → basic_authenticate a = .ok u p →
      (check_api_auth env u p).1 = false →
      NicUpdateView env req =
        (.resp (basic_challenge "authenticate to update DNS" "badauth"),
         [.lookupEv u])) ∧
    (∀ a u p, req.authHeader = some a → basic_authenticate a = .ok u p →
      (check_api_auth env u p).1 = true →
      req.userAgent.getD "unknown" ∈ env.badAgents →
      NicUpdateView env req = (.resp (Response "badagent"), [.lookupEv u])) :=
  ⟨fun h => nic_noauth env req h,
   fun a u p ha hb hfail => nic_badauth env req a u p ha hb hfail,
   fun a u p ha hb hok hbad => nic_badagent env req a u p ha hb hok hbad⟩

/-- C5 witness: concrete requests — missing header, wrong password, and
valid credentials with a blacklisted agent. -/
theorem c5_nic_update_outcomes_witness :
    NicUpdateView envGood reqNoAuth =
      (.resp (basic_challenge "authenticate to update DNS" "noauth"), []) ∧
    NicUpdateView envGood reqBadPw =
      (.resp (basic_challenge "authenticate to update DNS" "badauth"),
       [.lookupEv "host.example.org"]) ∧
    NicUpdateView envGood reqEvil =
      (.resp (Response "badagent"), [.lookupEv "host.example.org"]) := by
  refine ⟨(c5_nic_update_outcomes envGood reqNoAuth).1 rfl, ?_, ?_⟩
  · exact (c5_nic_update_outcomes envGood reqBadPw).2.1
      "Basic aG9zdC5leGFtcGxlLm9yZzp3cm9uZw==" "host.example.org" "wrong"
      rfl (by decide) (by decide)
  · exact (c5_nic_update_outcomes envGood reqEvil).2.2
      "Basic aG9zdC5leGFtcGxlLm9yZzpzM2NyM3Q=" "host.example.org" "s3cr3t"
      rfl (by decide) (by decide) (by decide)

/-- C6: the authenticated (session-owner) handler's outcome mapping — a
missing `hostname` yields `nohost` with no directory read at all; a failed
ownership check (also when the host exists under another owner) yields
`nohost`; a `myip` that is omitted *or* empty is replaced by the connection
address before dispatch. -/
theorem c6_authorized_outcomes (env : Env) (req : Request) :
    (req.hostnameParam = none →
      AuthorizedNicUpdateView env req = (.resp (Response "nohost"), [])) ∧
    (∀ hn, req.hostnameParam = some hn →
      (check_session_auth env req.user hn).1 = false →
      AuthorizedNicUpdateView env req =
        (.resp (Response "nohost"), [.lookupEv hn])) ∧
    (∀ hn, req.hostnameParam = some hn →
      (check_session_auth env req.user hn).1 = true →
      (req.myipParam = none ∨ req.myipParam = some "") →
      AuthorizedNicUpdateView env req =
        ((_update env hn req.remoteAddr (req.userAgent.getD "unknown")).1,
         .lookupEv hn ::
           (_update env hn req.remoteAddr (req.userAgent.getD "unknown")).2)) :=
  ⟨fun h => authorized_missing env req h,
   fun hn hhn hown => authorized_notowned env req hn hhn hown,
   fun hn hhn hown hmy => authorized_dispatch env req hn hhn hown hmy⟩

/-- C6 witness: missing hostname; a hostname owned by another user; and an
omitted `myip` falling back to the connection address. -/
theorem c6_authorized_outcomes_witness :
    AuthorizedNicUpdateView envGood reqAuthMissing =
      (.resp (Response "nohost"), []) ∧
    AuthorizedNicUpdateView envGood reqAuthOther =
      (.resp (Response "nohost"), [.lookupEv "dup.example.org"]) ∧
    AuthorizedNicUpdateView envGood reqAuthOwn =
      ((_update envGood "host.example.org" "198.51.100.7" "curl").1,
       .lookupEv "host.example.org" ::
         (_update envGood "host.example.org" "198.51.100.7" "curl").2) := by
  refine ⟨(c6_authorized_outcomes envGood reqAuthMissing).1 rfl, ?_, ?_⟩
  · exact (c6_authorized_outcomes envGood reqAuthOther).2.1
      "dup.example.org" rfl (by decide)
  · exact (c6_authorized_outcomes envGood reqAuthOwn).2.2
      "host.example.org" rfl (by decide) (Or.inl rfl)

/-- C8: `check_api_auth` returns false for zero matching hosts, false for
two or more matching hosts regardless of the password, and for exactly one
match returns exactly the password-hash verification result; its trace is a
single directory read — no `poke` and no update call, hence no mutation. -/
theorem c8_check_api_auth_spec (env : Env) (u p : String) :
    (filter_by_fqdn env.hosts u = [] → (check_api_auth env u p).1 = false) ∧
    (2 ≤ (filter_by_fqdn env.hosts u).length →
      (check_api_auth env u p).1 = false) ∧
    (∀ h, filter_by_fqdn env.hosts u = [h] →
      (check_api_auth env u p).1 = env.checkPassword p h.update_secret) ∧
    (check_api_auth env u p).2 = [.lookupEv u] := by
  refine ⟨?_, ?_, ?_, check_api_auth_trace env u p⟩
  · intro h
    unfold check_api_auth
    rw [h]
    rfl
  · intro h2
    unfold check_api_auth
    dsimp only
    rw [if_neg (by omega : ¬ (filter_by_fqdn env.hosts u).length = 0),
        if_pos (by omega : 1 < (filter_by_fqdn env.hosts u).length)]
  · intro h hh
    unfold check_api_auth
    rw [hh]
    simp only [List.length_singleton]
    norm_num

/-- C8 witness: zero matches, duplicate matches (with the password that
verifies the duplicate records ignored), and an exact match deferring to
the hash check. -/
theorem c8_check_api_auth_spec_witness :
    (check_api_auth envGood "missing.example.org" "s3cr3t").1 = false ∧
    (check_api_auth envGood "dup.example.org" "s3cr3t").1 = false ∧
    (check_api_auth envGood "host.example.org" "s3cr3t").1 =
      checkPasswordEx "s3cr3t" "hashA" ∧
    (check_api_auth envGood "host.example.org" "s3cr3t").2 =
      [.lookupEv "host.example.org"] := by
  refine ⟨?_, ?_, ?_, ?_⟩
  · exact (c8_check_api_auth_spec envGood "missing.example.org" "s3cr3t").1
      (by decide)
  · exact (c8_check_api_auth_spec envGood "dup.example.org" "s3cr3t").2.1
      (by decide)
  · exact (c8_check_api_auth_spec envGood "host.example.org" "s3cr3t").2.2.1
      hostA (by decide)
  · exact (c8_check_api_auth_spec envGood "host.example.org" "s3cr3t").2.2.2

/-- C9: on the unauthenticated handler the blacklist check runs only after
authentication — a blacklisted-agent request still gets the 401 `noauth`
challenge when the header is missing and the 401 `badauth` challenge when
verification fails, and a `badagent` body is only ever produced for a
request whose credentials decoded and verified successfully. -/
theorem c9_badagent_requires_auth (env : Env) (req : Request)
    (hbad : req.userAgent.getD "unknown" ∈ env.badAgents) :
    (req.authHeader = none →
      NicUpdateView env req =
        (.resp (basic_challenge "authenticate to update DNS" "noauth"), [])) ∧
    (∀ a u p, req.authHeader = some a → basic_authenticate a = .ok u p →
      (check_api_auth env u p).1 = false →
      NicUpdateView env req =
        (.resp (basic_challenge "authenticate to update DNS" "badauth"),
         [.lookupEv u])) ∧
    ((NicUpdateView env req).1 = .resp (Response "badagent") →
      ∃ a u p, req.authHeader = some a ∧ basic_authenticate a = .ok u p ∧
        (check_api_auth env u p).1 = true) := by
  refine ⟨fun h => nic_noauth env req h,
    fun a u p ha hb hfail => nic_badauth env req a u p ha hb hfail, ?_⟩
  intro hbody
  rcases hah : req.authHeader with _ | a
  · rw [nic_noauth env req hah] at hbody
    simp [basic_challenge, Response] at hbody
  · rcases hba : basic_authenticate a with ⟨u, p⟩ | _ | _ | _ | _
    · rcases hok : (check_api_auth env u p).1 with _ | _
      · rw [nic_badauth env req a u p hah hba hok] at hbody
        simp [basic_challenge, Response] at hbody
      · exact ⟨a, u, p, rfl, hba, hok⟩
    · rw [(nic_undecodable env req a hah).1 hba] at hbody
      exact Outcome.noConfusion hbody
    · rw [(nic_undecodable env req a hah).2.1 hba] at hbody
      exact Outcome.noConfusion hbody
    · rw [(nic_undecodable env req a hah).2.2.1 hba] at hbody
      exact Outcome.noConfusion hbody
    · rw [(nic_undecodable env req a hah).2.2.2 hba] at hbody
      exact Outcome.noConfusion hbody

/-- C9 witness: with a blacklisted agent, the missing-header and
wrong-password requests still yield the challenges, and the `badagent`
outcome implies successfully verified credentials. -/
theorem c9_badagent_requires_auth_witness :
    NicUpdateView envGood reqEvilNoAuth =
      (.resp (basic_challenge "authenticate to update DNS" "noauth"), []) ∧
    NicUpdateView envGood reqEvilBadPw =
      (.resp (basic_challenge "authenticate to update DNS" "badauth"),
       [.lookupEv "host.example.org"]) ∧
    (∃ a u p, reqEvil.authHeader = some a ∧ basic_authenticate a = .ok u p ∧
      (check_api_auth envGood u p).1 = true) := by
  refine ⟨(c9_badagent_requires_auth envGood reqEvilNoAuth (by decide)).1 rfl,
    ?_, ?_⟩
  · exact (c9_badagent_requires_auth envGood reqEvilBadPw (by decide)).2.1
      "Basic aG9zdC5leGFtcGxlLm9yZzp3cm9uZw==" "host.example.org" "wrong"
      rfl (by decide) (by decide)
  · exact (c9_badagent_requires_auth envGood reqEvil (by decide)).2.2 (by decide)

/-- C10: the unauthenticated handler falls back to the connection address
only when `myip` is absent — an empty `myip` is passed through to the
dispatcher, whose classification fails on the empty string; the
authenticated handler's fallback, by contrast, also covers the empty
value. -/
theorem c10_empty_myip_no_fallback (env : Env) (req : Request) (a u p : String)
    (ha : req.authHeader = some a) (hb : basic_authenticate a = .ok u p)
    (hok : (check_api_auth env u p).1 = true)
    (hnbad : req.userAgent.getD "unknown" ∉ env.badAgents)
    (hmy : req.myipParam = some "") :
    NicUpdateView env req =
      ((_update env (req.hostnameParam.getD u) "" (req.userAgent.getD "unknown")).1,
       .lookupEv u ::
         (_update env (req.hostnameParam.getD u) "" (req.userAgent.getD "unknown")).2) ∧
    check_ip "" [.ipv4, .ipv6] = none ∧
    (∀ h, filter_by_fqdn env.hosts (req.hostnameParam.getD u) = [h] →
      (_update env (req.hostnameParam.getD u) "" (req.userAgent.getD "unknown")).1 =
        .fault .invalidIPError) ∧
    (∀ env2 req2 hn, req2.hostnameParam = some hn →
      (check_session_auth env2 req2.user hn).1 = true →
      req2.myipParam = some "" →
      AuthorizedNicUpdateView env2 req2 =
        ((_update env2 hn req2.remoteAddr (req2.userAgent.getD "unknown")).1,
         .lookupEv hn ::
           (_update env2 hn req2.remoteAddr (req2.userAgent.getD "unknown")).2)) := by
  refine ⟨?_, by decide, ?_, ?_⟩
  · have h1 := nic_dispatch env req a u p ha hb hok hnbad
    rw [hmy] at h1
    exact h1
  · intro h hh
    rw [update_invalid env (req.hostnameParam.getD u) ""
      (req.userAgent.getD "unknown") h hh (by decide)]
  · intro env2 req2 hn hhn hown hmy2
    exact authorized_dispatch env2 req2 hn hhn hown (Or.inr hmy2)

/-- C10 witness: a concrete authenticated request with `myip=` (empty)
reaches the dispatcher with the empty string and dies on classification,
while the authenticated handler's empty `myip` falls back to the
connection address. -/
theorem c10_empty_myip_no_fallback_witness :
    NicUpdateView envGood reqEmptyIp =
      ((_update envGood "host.example.org" "" "curl").1,
       .lookupEv "host.example.org" ::
         (_update envGood "host.example.org" "" "curl").2) ∧
    check_ip "" [.ipv4, .ipv6] = none ∧
    (_update envGood "host.example.org" "" "curl").1 = .fault .invalidIPError ∧
    AuthorizedNicUpdateView envGood reqAuthOwnEmpty =
      ((_update envGood "host.example.org" "198.51.100.7" "curl").1,
       .lookupEv "host.example.org" ::
         (_update envGood "host.example.org" "198.51.100.7" "curl").2) := by
  have h := c10_empty_myip_no_fallback envGood reqEmptyIp
    "Basic aG9zdC5leGFtcGxlLm9yZzpzM2NyM3Q=" "host.example.org" "s3cr3t"
    rfl (by decide) (by decide) (by decide) rfl
  exact ⟨h.1, h.2.1, h.2.2.1 hostA (by decide),
    h.2.2.2 envGood reqAuthOwnEmpty "host.example.org" rfl (by decide) rfl⟩

end NsUpdate
